import Mathlib

/-!
Verification of the 3whale income pipeline core.

Shallow embedding of the TypeScript sources:
- `src/metrics/money.ts`            : finance-safe Money toolkit
- `src/metrics/shopifyOrderTypes.ts`: normalized order/refund types
- `src/metrics/computeIncomeComponents.ts` : income calculator and exclusion rule
- `src/shopify/mappers/mapOrderToNormalized.ts` : refund attribution
- `src/shopify/client/ordersForIncomeV1Query.ts` (second unit) : MoneyValue serialization
- `src/services/hourlyBuckets.ts` (`ensureContinuousHourlyBuckets`), plus the
  daily `generate_series` SQL of `src/api/routes/internal.ts` : bucketing engine
- `src/services/comparison.ts` (`computeDeltaPercent`) : delta calculator
- `src/jobs/handlers` sync processor (`syncOrdersIncomeV1`) : watermark update

Decimal amounts are decimal strings in the source, manipulated through
decimal.js. We model their values as exact rationals (ℚ): decimal.js keeps
20 significant digits and the pipeline canonicalizes to at most 20 decimal
places, which is value-exact for every monetary magnitude the pipeline
stores (DB columns are NUMERIC(20,6)). Fallible code (JS `throw`) is
modelled with `Except`.
-/

namespace ThreeWhale

/-! ### Money model (src/metrics/money.ts) -/

/-- `Money = { amount: DecimalString; currencyCode: CurrencyCode }`;
the amount value is modelled as an exact rational. -/
structure Money where
  amount : ℚ
  currencyCode : String
deriving DecidableEq

/-- Errors thrown by the money toolkit and the mappers.
`currencyMismatch a b` models `throw new Error("Currency mismatch: ...")`. -/
inductive MoneyError where
  | currencyMismatch (a b : String)
deriving DecidableEq

/-- `assertSameCurrency`: throws if currencies differ. -/
def assertSameCurrency (a b : Money) : Except MoneyError Unit :=
  if a.currencyCode = b.currencyCode then .ok ()
  else .error (.currencyMismatch a.currencyCode b.currencyCode)

/-- `zeroMoney(currencyCode)`. -/
def zeroMoney (currencyCode : String) : Money :=
  { amount := 0, currencyCode := currencyCode }

/-- `addMoney`: asserts same currency, then adds the decimal amounts. -/
def addMoney (a b : Money) : Except MoneyError Money := do
  let _ ← assertSameCurrency a b
  .ok { amount := a.amount + b.amount, currencyCode := a.currencyCode }

/-- `subMoney`: asserts same currency, then subtracts the decimal amounts. -/
def subMoney (a b : Money) : Except MoneyError Money := do
  let _ ← assertSameCurrency a b
  .ok { amount := a.amount - b.amount, currencyCode := a.currencyCode }

/-- `cmpMoney`: asserts same currency; returns -1 if a < b, 0 if equal, 1 if a > b. -/
def cmpMoney (a b : Money) : Except MoneyError Int := do
  let _ ← assertSameCurrency a b
  if a.amount < b.amount then .ok (-1)
  else if b.amount < a.amount then .ok 1
  else .ok 0

/-! ### Normalized types (src/metrics/shopifyOrderTypes.ts)

The Zod schemas validate string formats (ISO datetimes, decimal-string
regex); on data of these structured types the parse is the identity, so it
is not repeated here.  `isTest?: boolean` and `cancelledAt?: string|null`
are optional fields, modelled with `Option`. -/

structure ShopifyOrderNormalized where
  id : String
  processedAt : String
  currencyCode : String
  isTest : Option Bool
  cancelledAt : Option String
  lineItemsSubtotal : Money
  shippingAmount : Money
  taxAmount : Money
  discountAmount : Money
deriving DecidableEq

structure ShopifyRefundNormalized where
  id : String
  createdAt : String
  amount : Money
deriving DecidableEq

/-- Result type of `computeIncomeComponents`. -/
structure IncomeComponents where
  currencyCode : String
  line_items_subtotal : Money
  shipping_amount : Money
  tax_amount : Money
  discount_amount : Money
  income_bruto : Money
  refunds : Money
  income_neto : Money
deriving DecidableEq

/-! ### Income calculator (src/metrics/computeIncomeComponents.ts) -/

/-- The `for (const m of orderMoneyFields) assertSameCurrency(m, {amount:"0", currencyCode})`
loop, unrolled over the four order money fields. -/
def checkOrderCurrencies (order : ShopifyOrderNormalized) : Except MoneyError Unit := do
  let _ ← assertSameCurrency order.lineItemsSubtotal (zeroMoney order.currencyCode)
  let _ ← assertSameCurrency order.shippingAmount (zeroMoney order.currencyCode)
  let _ ← assertSameCurrency order.taxAmount (zeroMoney order.currencyCode)
  let _ ← assertSameCurrency order.discountAmount (zeroMoney order.currencyCode)
  .ok ()

/-- The `for (const r of parsedRefunds) assertSameCurrency(r.amount, {amount:"0", currencyCode})` loop. -/
def checkRefundCurrencies (currencyCode : String) (refunds : List ShopifyRefundNormalized) :
    Except MoneyError Unit :=
  refunds.forM (fun r => assertSameCurrency r.amount (zeroMoney currencyCode))

/-- The ternary
`refunds.length === 0 ? zeroMoney(c) : refunds.reduce((acc, r) => addMoney(acc, r.amount), zeroMoney(c))`. -/
def refundsSumV1 (currencyCode : String) (refunds : List ShopifyRefundNormalized) :
    Except MoneyError Money :=
  if refunds.isEmpty then .ok (zeroMoney currencyCode)
  else refunds.foldlM (fun acc r => addMoney acc r.amount) (zeroMoney currencyCode)

/-- `computeIncomeComponents(order, refunds)`:
asserts all Money fields share the order currency, sums refunds from a zero
start, and returns `income_bruto = lineItemsSubtotal + shippingAmount`
(tax excluded), `income_neto = income_bruto − refunds`.  The returned
`line_items_subtotal` field is deliberately aliased to `income_neto`
("canonical order revenue", see the source comment). -/
def computeIncomeComponents (order : ShopifyOrderNormalized)
    (refunds : List ShopifyRefundNormalized) : Except MoneyError IncomeComponents := do
  let currencyCode := order.currencyCode
  let _ ← checkOrderCurrencies order
  let _ ← checkRefundCurrencies currencyCode refunds
  let refundsSum ← refundsSumV1 currencyCode refunds
  let income_bruto ← addMoney order.lineItemsSubtotal order.shippingAmount
  let income_neto ← subMoney income_bruto refundsSum
  .ok { currencyCode := currencyCode
        line_items_subtotal := income_neto
        shipping_amount := order.shippingAmount
        tax_amount := order.taxAmount
        discount_amount := order.discountAmount
        income_bruto := income_bruto
        refunds := refundsSum
        income_neto := income_neto }

/-- Exclusion reasons of `shouldExcludeOrderV1` (source string literals
"cancelled" | "test" | "fully_refunded"). -/
inductive ExcludeReason where
  | cancelled
  | test
  | fully_refunded
deriving DecidableEq

structure ExcludeDecision where
  exclude : Bool
  reason : Option ExcludeReason
deriving DecidableEq

/-- `order.cancelledAt != null && order.cancelledAt !== ""`. -/
def cancelledPresent (order : ShopifyOrderNormalized) : Bool :=
  match order.cancelledAt with
  | some s => s ≠ ""
  | none => false

/-- `shouldExcludeOrderV1(order, refunds)`: first-match-wins checks —
cancelled, then test, then fully refunded (refunds ≥ income_bruto). -/
def shouldExcludeOrderV1 (order : ShopifyOrderNormalized)
    (refunds : List ShopifyRefundNormalized) : Except MoneyError ExcludeDecision :=
  if cancelledPresent order then
    .ok { exclude := true, reason := some .cancelled }
  else if order.isTest = some true then
    .ok { exclude := true, reason := some .test }
  else do
    let components ← computeIncomeComponents order refunds
    let c ← cmpMoney components.refunds components.income_bruto
    if 0 ≤ c then .ok { exclude := true, reason := some .fully_refunded }
    else .ok { exclude := false, reason := none }

deriving instance DecidableEq for Except

/-! ### Concrete inputs used by the scenario witnesses -/

/-- The scenario order of §8: subtotal 1000, shipping 100, tax 160, discount 0. -/
def scenarioOrder : ShopifyOrderNormalized :=
  { id := "gid-1", processedAt := "2026-02-28T10:00:00Z", currencyCode := "MXN"
    isTest := some false, cancelledAt := none
    lineItemsSubtotal := { amount := 1000, currencyCode := "MXN" }
    shippingAmount := { amount := 100, currencyCode := "MXN" }
    taxAmount := { amount := 160, currencyCode := "MXN" }
    discountAmount := { amount := 0, currencyCode := "MXN" } }

/-- One refund of 200 for the scenario order. -/
def scenarioRefund : ShopifyRefundNormalized :=
  { id := "refund-1", createdAt := "2026-03-02T10:00:00Z"
    amount := { amount := 200, currencyCode := "MXN" } }

/-- The scenario order, cancelled, with a full (1100) refund: both rule (1)
and rule (3) match. -/
def cancelledRefundedOrder : ShopifyOrderNormalized :=
  { scenarioOrder with cancelledAt := some "2026-03-01T00:00:00+00:00" }

def fullRefund : ShopifyRefundNormalized :=
  { id := "refund-full", createdAt := "2026-03-02T10:00:00Z"
    amount := { amount := 1100, currencyCode := "MXN" } }

/-! ### Delta calculator (src/services/comparison.ts, computeDeltaPercent) -/

/-- Mathematical half-to-even (bankers) rounding to an integer, the semantics
of `Decimal.ROUND_HALF_EVEN`. -/
def roundHalfEvenInt (q : ℚ) : ℤ :=
  let f : ℤ := ⌊q⌋
  if q - f < 1 / 2 then f
  else if 1 / 2 < q - f then f + 1
  else if f % 2 = 0 then f else f + 1

/-- `d.toDecimalPlaces(n, Decimal.ROUND_HALF_EVEN)` as a rational. -/
def toDecimalPlacesHE (n : ℕ) (q : ℚ) : ℚ :=
  (roundHalfEvenInt (q * 10 ^ n) : ℚ) / 10 ^ n

inductive DeltaDirection where
  | up
  | down
  | flat
deriving DecidableEq

/-- `DeltaItem = { percentChange: number | null; direction }`.  The source
stores `percent.toNumber()`; we model the exact decimal value (2 decimal
places are exactly determined). -/
structure DeltaItem where
  percentChange : Option ℚ
  direction : DeltaDirection
deriving DecidableEq

/-- `computeDeltaPercent(current, previous)` from src/services/comparison.ts. -/
def computeDeltaPercent (current previous : ℚ) : DeltaItem :=
  if previous = 0 then
    if current = 0 then { percentChange := some 0, direction := .flat }
    else { percentChange := none, direction := if 0 < current then .up else .down }
  else
    let percent := toDecimalPlacesHE 2 ((current - previous) / previous * 100)
    { percentChange := some percent
      direction := if 0 < percent then .up else if percent < 0 then .down else .flat }

/-! ### Sync processor watermark and fetch window (syncOrdersIncomeV1) -/

def msPerDay : Int := 86400000

/-- The fetch-window lower bound of `syncOrdersIncomeV1`:
`watermark ? new Date(watermark − OVERLAP_DAYS·day) : new Date(now − INITIAL_BACKFILL_DAYS·day)`.
Instants are epoch milliseconds. -/
def effectiveWatermarkLowerBound (watermark : Option Int)
    (now overlapDays initialBackfillDays : Int) : Int :=
  match watermark with
  | some w => w - overlapDays * msPerDay
  | none => now - initialBackfillDays * msPerDay

/-- The per-run maximum of observed `processedAt` timestamps: records with a
null `processedAt` are skipped (`continue`), and `maxProcessedAtSeen` is
updated whenever it is null or the new timestamp is strictly greater. -/
def runMaxProcessedAt (records : List (Option Int)) : Option Int :=
  records.foldl
    (fun maxSeen r =>
      match r with
      | none => maxSeen
      | some t =>
        match maxSeen with
        | none => some t
        | some m => if m < t then some t else maxSeen)
    none

/-- The watermark written at the end of a run: on success the sync state is
updated with `watermarkProcessedAt := maxProcessedAtSeen` (even when that is
null); on failure the watermark column is not touched. -/
def nextWatermark (prior : Option Int) (success : Bool) (maxSeen : Option Int) :
    Option Int :=
  if success then maxSeen else prior

/-! ### Refund attribution (src/shopify/mappers/mapOrderToNormalized.ts)

Amount strings are validated against `DECIMAL_STRING_REGEX` (optional minus,
digits, optional decimal part) and canonicalized value-preservingly by
`toCanonicalDecimalString`; we model the validated values as rationals. -/

structure MoneyV2 where
  amount : ℚ
  currencyCode : String
deriving DecidableEq

structure MoneySet where
  shopMoney : MoneyV2
deriving DecidableEq

/-- A refund node of the `ordersForIncomeV1` query: `totalRefundedSet` is
required by `RefundNodeSchema`; `refundLineItems` is the list of the edges'
`node.subtotalSet` fields (each nullable/optional). -/
structure RefundNode where
  id : String
  createdAt : String
  totalRefundedSet : MoneySet
  refundLineItems : List (Option MoneySet)
deriving DecidableEq

/-- `shopMoneyToMoney(set, currencyCode)`: missing set → zero; currency
mismatch → throw; otherwise the canonicalized amount. -/
def shopMoneyToMoney (set : Option MoneySet) (currencyCode : String) :
    Except MoneyError Money :=
  match set with
  | none => .ok { amount := 0, currencyCode := currencyCode }
  | some s =>
    if s.shopMoney.currencyCode = currencyCode then
      .ok { amount := s.shopMoney.amount, currencyCode := currencyCode }
    else .error (.currencyMismatch currencyCode s.shopMoney.currencyCode)

/-- `addMoneyAmounts(left, right)` from the mapper. -/
def addMoneyAmounts (left right : Money) : Except MoneyError Money :=
  if left.currencyCode = right.currencyCode then
    .ok { amount := left.amount + right.amount, currencyCode := left.currencyCode }
  else .error (.currencyMismatch left.currencyCode right.currencyCode)

/-- `refundLineItemsSubtotalAmount(refundNode, currencyCode)`: zero when no
edges, else the reduce of the edges' subtotals from a zero start. -/
def refundLineItemsSubtotalAmount (refundLineItems : List (Option MoneySet))
    (currencyCode : String) : Except MoneyError Money :=
  if refundLineItems.isEmpty then .ok (zeroMoney currencyCode)
  else
    refundLineItems.foldlM
      (fun acc e => do
        let subtotal ← shopMoneyToMoney e currencyCode
        addMoneyAmounts acc subtotal)
      (zeroMoney currencyCode)

/-- The refund-amount resolution of `mapOrderToNormalized`:
`totalRefunded.eq(0) && lineItemsSubtotal.gt(0) ? lineItemsSubtotal : totalRefunded`. -/
def mapRefundAmount (node : RefundNode) (currencyCode : String) :
    Except MoneyError Money := do
  let totalRefunded ← shopMoneyToMoney (some node.totalRefundedSet) currencyCode
  let refundLineItemsSubtotal ←
    refundLineItemsSubtotalAmount node.refundLineItems currencyCode
  .ok
    (if totalRefunded.amount = 0 ∧ 0 < refundLineItemsSubtotal.amount then
      refundLineItemsSubtotal
    else totalRefunded)

/-- The per-refund mapping of `mapOrderToNormalized` (lines 124–145). -/
def mapRefundNode (node : RefundNode) (currencyCode : String) :
    Except MoneyError ShopifyRefundNormalized := do
  let amount ← mapRefundAmount node currencyCode
  .ok { id := node.id, createdAt := node.createdAt, amount := amount }

/-- A refund with reported total 0 and a single line-item refund of −5. -/
def negLineRefundNode : RefundNode :=
  { id := "refund-neg", createdAt := "2026-03-02T10:00:00Z"
    totalRefundedSet := { shopMoney := { amount := 0, currencyCode := "MXN" } }
    refundLineItems := [some { shopMoney := { amount := -5, currencyCode := "MXN" } }] }

/-- A refund with reported total 0 and a single line-item refund of 599. -/
def lineRefund599Node : RefundNode :=
  { id := "refund-599", createdAt := "2026-03-02T10:00:00Z"
    totalRefundedSet := { shopMoney := { amount := 0, currencyCode := "MXN" } }
    refundLineItems := [some { shopMoney := { amount := 599, currencyCode := "MXN" } }] }

/-! ### MoneyValue serialization (src/shopify/client, toRaw6 / toMoneyValue)

The source parses amount strings with `new Decimal(s)` (decimal.js) and
serializes with `toFixed`.  A finite decimal.js value is sign/digits/
exponent, modelled as an integer mantissa and a power-of-ten exponent
(`DecValue`, value = m·10^e).  The constructor accepts, after stripping one
`+`/`-` sign: decimal notation `(\d+(\.\d*)?|\.\d+)(e[+-]?\d+)?` (case-
insensitive); when the string contains `_`, each underscore standing
between two decimal digits is removed and the decimal test retried; the
exact literals `Infinity` and `NaN` (non-finite, only on an underscore-free
string); and binary/hexadecimal/octal notation
`0b/0x/0o digits (. digits)? (p[+-]?\d+)?` (case-insensitive), whose value
`mantissa / base^fracLen · 2^p` is a dyadic rational and hence an exact
`DecValue`.  Everything else throws (`.invalid`).  decimal.js performs the
radix conversion exactly (it computes the division at a precision chosen
"to ensure exact conversion" with rounding disabled).  `toFixed` uses
decimal.js's default rounding `ROUND_HALF_UP` (ties away from zero) — the
repository never reconfigures `Decimal.rounding`;
`toDecimalPlaces(…, ROUND_HALF_EVEN)` rounds ties to even.  The sign of a
negative zero result is not modelled (decimal.js prints `-0.000000`, this
model prints `0.000000`); no claim depends on it. -/

def digitVal (c : Char) : ℕ := c.toNat - 48

def digitsVal (ds : List Char) : ℕ := ds.foldl (fun n c => 10 * n + digitVal c) 0

/-- A finite decimal value `m · 10^e`. -/
structure DecValue where
  m : Int
  e : Int
deriving DecidableEq

inductive DecParse where
  | finite (v : DecValue)
  | nonfinite
  | invalid
deriving DecidableEq

/-- Parse `digits[.digits]` (at least one digit overall) and return the value
with the remaining characters. -/
def parseSignificand (cs : List Char) : Option (DecValue × List Char) :=
  let ip := cs.takeWhile Char.isDigit
  let r1 := cs.dropWhile Char.isDigit
  match r1 with
  | '.' :: r2 =>
    let fp := r2.takeWhile Char.isDigit
    let r3 := r2.dropWhile Char.isDigit
    if ip.isEmpty && fp.isEmpty then none
    else some (⟨(digitsVal ip : Int) * 10 ^ fp.length + (digitsVal fp : Int),
      -(fp.length : Int)⟩, r3)
  | _ => if ip.isEmpty then none else some (⟨(digitsVal ip : Int), 0⟩, r1)

/-- Parse the optional exponent tail `[eE][+-]?digits` (must consume the rest). -/
def parseExponentTail (cs : List Char) : Option Int :=
  match cs with
  | [] => some 0
  | c :: rest =>
    if c = 'e' ∨ c = 'E' then
      match rest with
      | '+' :: ds =>
        if ds ≠ [] ∧ ds.all Char.isDigit then some (digitsVal ds : Int) else none
      | '-' :: ds =>
        if ds ≠ [] ∧ ds.all Char.isDigit then some (-(digitsVal ds : Int)) else none
      | ds =>
        if ds ≠ [] ∧ ds.all Char.isDigit then some (digitsVal ds : Int) else none
    else none

def parseDecCore (cs : List Char) : Option DecValue :=
  match parseSignificand cs with
  | none => none
  | some (v, rest) =>
    match parseExponentTail rest with
    | none => none
    | some e2 => some ⟨v.m, v.e + e2⟩

/-- The numeric-separator rewrite `str.replace(/(\d)_(?=\d)/g, '$1')`:
every underscore standing between two decimal digits is removed. -/
def stripUnderscores : List Char → List Char
  | c :: '_' :: d :: rest =>
    if c.isDigit && d.isDigit then c :: stripUnderscores (d :: rest)
    else c :: stripUnderscores ('_' :: d :: rest)
  | c :: rest => c :: stripUnderscores rest
  | [] => []

def isHexDigitCh (c : Char) : Bool :=
  c.isDigit || ('a' ≤ c && c ≤ 'f') || ('A' ≤ c && c ≤ 'F')

def isBinDigitCh (c : Char) : Bool := c == '0' || c == '1'

def isOctDigitCh (c : Char) : Bool := '0' ≤ c && c ≤ '7'

def hexDigitVal (c : Char) : ℕ :=
  if c.isDigit then c.toNat - 48
  else if 'a' ≤ c ∧ c ≤ 'f' then c.toNat - 87
  else if 'A' ≤ c ∧ c ≤ 'F' then c.toNat - 55
  else 0

def digitsValBase (base : ℕ) (ds : List Char) : ℕ :=
  ds.foldl (fun n c => base * n + hexDigitVal c) 0

/-- The dyadic rational `m · 2^t` as an exact `DecValue`
(`m · 2^t = m · 5^(−t) · 10^t` for `t < 0`). -/
def dyadicToDecValue (m t : Int) : DecValue :=
  if 0 ≤ t then ⟨m * 2 ^ t.toNat, 0⟩ else ⟨m * 5 ^ (-t).toNat, t⟩

/-- Parse the optional binary-exponent tail `[pP][+-]?digits` (decimal
digits; must consume the rest). -/
def parsePExpTail (cs : List Char) : Option Int :=
  match cs with
  | [] => some 0
  | c :: rest =>
    if c = 'p' ∨ c = 'P' then
      match rest with
      | '+' :: ds =>
        if ds ≠ [] ∧ ds.all Char.isDigit then some (digitsVal ds : Int) else none
      | '-' :: ds =>
        if ds ≠ [] ∧ ds.all Char.isDigit then some (-(digitsVal ds : Int)) else none
      | ds =>
        if ds ≠ [] ∧ ds.all Char.isDigit then some (digitsVal ds : Int) else none
    else none

/-- Parse `digits (. digits)? (p-exponent)?` in base `2^log2base` after a
`0b`/`0x`/`0o` prefix: the value is `mantissa / base^fracLen · 2^p`. -/
def parseRadix (sgn : Int) (base log2base : ℕ) (isDig : Char → Bool)
    (cs : List Char) : DecParse :=
  let ip := cs.takeWhile isDig
  let r1 := cs.dropWhile isDig
  match r1 with
  | '.' :: r2 =>
    let fp := r2.takeWhile isDig
    let r3 := r2.dropWhile isDig
    if ip.isEmpty && fp.isEmpty then .invalid
    else
      match parsePExpTail r3 with
      | none => .invalid
      | some p =>
        .finite (dyadicToDecValue (sgn * (digitsValBase base (ip ++ fp) : Int))
          (p - ((fp.length * log2base : ℕ) : Int)))
  | _ =>
    if ip.isEmpty then .invalid
    else
      match parsePExpTail r1 with
      | none => .invalid
      | some p => .finite (dyadicToDecValue (sgn * (digitsValBase base ip : Int)) p)

/-- The `isHex`/`isBinary`/`isOctal` branches of the constructor (`parseOther`). -/
def parseBaseNotation (sgn : Int) (cs : List Char) : DecParse :=
  match cs with
  | '0' :: c :: rest =>
    if c = 'x' ∨ c = 'X' then parseRadix sgn 16 4 isHexDigitCh rest
    else if c = 'b' ∨ c = 'B' then parseRadix sgn 2 1 isBinDigitCh rest
    else if c = 'o' ∨ c = 'O' then parseRadix sgn 8 3 isOctDigitCh rest
    else .invalid
  | _ => .invalid

/-- `new Decimal(s)`: strip one sign; try decimal notation; on a string
containing `_`, remove the digit-separating underscores and retry decimal
then radix notation; otherwise recognize the literals `Infinity`/`NaN`,
then try binary/hexadecimal/octal notation; anything else throws. -/
def parseDec (s : String) : DecParse :=
  match s.data with
  | [] => .invalid
  | cs =>
    let stripped : Int × List Char :=
      match cs with
      | '-' :: r => (-1, r)
      | '+' :: r => (1, r)
      | r => (1, r)
    match parseDecCore stripped.2 with
    | some v => .finite ⟨stripped.1 * v.m, v.e⟩
    | none =>
      if stripped.2.contains '_' then
        let cs2 := stripUnderscores stripped.2
        match parseDecCore cs2 with
        | some v => .finite ⟨stripped.1 * v.m, v.e⟩
        | none => parseBaseNotation stripped.1 cs2
      else if stripped.2 = "Infinity".data ∨ stripped.2 = "NaN".data then .nonfinite
      else parseBaseNotation stripped.1 stripped.2

/-- Round `a / d` to a natural number, ties upward (used on absolute values:
ties away from zero, decimal.js `ROUND_HALF_UP`). -/
def roundHalfUpAbs (a d : ℕ) : ℕ :=
  let q := a / d
  let r := a % d
  if d ≤ 2 * r then q + 1 else q

/-- Round `a / d` to a natural number, ties to even (`ROUND_HALF_EVEN`). -/
def roundHalfEvenAbs (a d : ℕ) : ℕ :=
  let q := a / d
  let r := a % d
  if 2 * r < d then q
  else if d < 2 * r then q + 1
  else if q % 2 = 0 then q else q + 1

def applySign (sign : Int) (a : ℕ) : Int := if sign < 0 then -(a : Int) else (a : Int)

/-- The integer `n` with `v.toFixed(decimals) = n / 10^decimals`, rounding
half-up (decimal.js default) when `v` has more than `decimals` fractional
digits. -/
def toFixedScaledHU (decimals : ℕ) (v : DecValue) : Int :=
  let shift := v.e + decimals
  if 0 ≤ shift then v.m * 10 ^ shift.toNat
  else applySign v.m (roundHalfUpAbs v.m.natAbs (10 ^ (-shift).toNat))

/-- Like `toFixedScaledHU` but rounding half-to-even
(`toDecimalPlaces(decimals, ROUND_HALF_EVEN)`). -/
def toFixedScaledHE (decimals : ℕ) (v : DecValue) : Int :=
  let shift := v.e + decimals
  if 0 ≤ shift then v.m * 10 ^ shift.toNat
  else applySign v.m (roundHalfEvenAbs v.m.natAbs (10 ^ (-shift).toNat))

/-- Decimal digits of a natural number, most significant first (fuel-based so
the kernel can evaluate it; the fuel `n + 1` always suffices). -/
def natDigitsAux : ℕ → ℕ → List Char
  | 0, _ => []
  | fuel + 1, n =>
    if n < 10 then [Nat.digitChar n]
    else natDigitsAux fuel (n / 10) ++ [Nat.digitChar (n % 10)]

def natDigits (n : ℕ) : List Char := natDigitsAux (n + 1) n

def padDigits (len : ℕ) (ds : List Char) : List Char :=
  List.replicate (len - ds.length) '0' ++ ds

/-- Print `m / 10^decimals` with exactly `decimals` fractional digits
(`Decimal.toFixed` output shape). -/
def formatFixed (decimals : ℕ) (m : Int) : String :=
  let a := m.natAbs
  let ip := a / 10 ^ decimals
  let fp := a % 10 ^ decimals
  let sign : List Char := if m < 0 then ['-'] else []
  String.mk (sign ++ natDigits ip ++ '.' :: padDigits decimals (natDigits fp))

/-- The characters JS `String.prototype.trim` strips: ECMAScript WhiteSpace
(TAB, VT, FF, SP, NBSP, ZWNBSP/BOM and the Unicode Zs spaces) and
LineTerminator (LF, CR, LS, PS). -/
def jsWhitespace (c : Char) : Bool :=
  let n := c.toNat
  n == 9 || n == 10 || n == 11 || n == 12 || n == 13 || n == 32 || n == 160 ||
  n == 5760 || (decide (8192 ≤ n) && decide (n ≤ 8202)) || n == 8232 ||
  n == 8233 || n == 8239 || n == 8287 || n == 12288 || n == 65279

/-- JS `String.prototype.trim`. -/
def jsTrim (s : String) : String :=
  String.mk (((s.data.dropWhile jsWhitespace).reverse.dropWhile
    jsWhitespace).reverse)

/-- `String(value).trim() || "0"`. -/
def jsOrZero (s : String) : String := if jsTrim s = "" then "0" else jsTrim s

/-- `toRaw6(value)`: normalize a decimal string to exactly 6 decimal places;
invalid or non-finite input yields `"0.000000"`. -/
def toRaw6 (value : String) : String :=
  match parseDec (jsOrZero value) with
  | .finite v => formatFixed 6 (toFixedScaledHU 6 v)
  | .nonfinite => "0.000000"
  | .invalid => "0.000000"

structure MoneyValue where
  raw : String
  display : String
deriving DecidableEq

/-- `new Decimal(raw)` on a string known to be well-formed. -/
def parseFiniteOr0 (s : String) : DecValue :=
  match parseDec s with
  | .finite v => v
  | _ => ⟨0, 0⟩

/-- `toMoneyValue(raw6)`: raw = 6-decimal normalization; display = the raw
value rounded to 2 decimals with half-even (bankers) rounding. -/
def toMoneyValue (raw6 : String) : MoneyValue :=
  let raw := toRaw6 raw6
  let d := parseFiniteOr0 raw
  { raw := raw, display := formatFixed 2 (toFixedScaledHE 2 d) }

/-- Number of characters after the first `'.'` of a string (0 when none). -/
def fracDigitCount (s : String) : ℕ :=
  match s.data.dropWhile (fun c => c != '.') with
  | [] => 0
  | _ :: t => t.length

/-! ### Bucketing engine

`ensureContinuousHourlyBuckets` (src/services/hourlyBuckets.ts): instants are
epoch milliseconds; a DateTime in the shop zone is modelled by a fixed UTC
offset `tzOffset` in milliseconds (the shop zone America/Mexico_City has no
DST), so `DateTime.setZone(tz).startOf("hour")` is flooring of the local
millisecond value to the hour, and the loop
`for (cursor = startLocal; cursor <= endLocal; cursor += 1h)` emits
`startLocal, startLocal + 1h, …` while `≤ endLocal`.  A bucket key
(`yyyy-LL-dd'T'HH:00:00`, injective on hour starts) is modelled by the local
hour-start value itself; `p.date.slice(0, 19)` truncates a point's date
string to whole seconds, modelled by flooring to 1000 ms; the JS `Map`
built from the point list keeps the LAST entry for a duplicated key. -/

def msPerHour : Int := 3600000

/-- `startOf("hour")` on a local millisecond timestamp. -/
def hourFloor (t : Int) : Int := Int.fdiv t msPerHour * msPerHour

/-- `slice(0, 19)` on a serialized local timestamp: truncation to seconds. -/
def secFloor (t : Int) : Int := Int.fdiv t 1000 * 1000

structure HourlyBucketPoint where
  date : Int
  ordersCount : ℕ
  orderRevenue : MoneyValue
  incomeBruto : MoneyValue
  refunds : MoneyValue
  incomeNeto : MoneyValue
  shippingAmount : MoneyValue
  taxAmount : MoneyValue
  discountAmount : MoneyValue
deriving DecidableEq

/-- The keys emitted by the cursor loop: `startLocal + i·1h` for every `i`
with `startLocal + i·1h ≤ endLocal` (empty when `startLocal > endLocal`). -/
def hourKeys (startLocal endLocal : Int) : List Int :=
  if startLocal ≤ endLocal then
    (List.range ((endLocal - startLocal).toNat / 3600000 + 1)).map
      (fun i : ℕ => startLocal + msPerHour * (i : Int))
  else []

/-- `ensureContinuousHourlyBuckets(points, startUtc, endUtc, timezone, makeZeroPoint)`. -/
def ensureContinuousHourlyBuckets (points : List HourlyBucketPoint)
    (startUtc endUtc tzOffset : Int) (makeZeroPoint : Int → HourlyBucketPoint) :
    List HourlyBucketPoint :=
  let startLocal := hourFloor (startUtc + tzOffset)
  let endLocal := hourFloor (endUtc + tzOffset)
  (hourKeys startLocal endLocal).map (fun bucketKey =>
    ((points.filter (fun p => secFloor p.date == bucketKey)).getLast?).getD
      (makeZeroPoint bucketKey))

/-! Daily granularity (the `generate_series(from::date, to::date, '1 day')`
LEFT JOIN query of src/api/routes/internal.ts, daily-v2 endpoint): days are
local calendar day numbers; `agg` holds the GROUP BY rows of the order
aggregation, `refundsAgg` those of the refund-by-event-time aggregation;
each column is COALESCEd to zero for days absent from the data. -/

structure DailyAgg where
  ordersCount : ℕ
  lineItemsSubtotal : ℚ
  incomeBruto : ℚ
  incomeNeto : ℚ
  shippingAmount : ℚ
  taxAmount : ℚ
  discountAmount : ℚ
deriving DecidableEq

structure DailyBucketRow where
  date : Int
  ordersCount : ℕ
  lineItemsSubtotal : ℚ
  incomeBruto : ℚ
  refunds : ℚ
  incomeNeto : ℚ
  shippingAmount : ℚ
  taxAmount : ℚ
  discountAmount : ℚ
deriving DecidableEq

def zeroDailyAgg : DailyAgg :=
  { ordersCount := 0, lineItemsSubtotal := 0, incomeBruto := 0, incomeNeto := 0
    shippingAmount := 0, taxAmount := 0, discountAmount := 0 }

def generateSeriesDays (fromDay toDay : Int) : List Int :=
  if fromDay ≤ toDay then
    (List.range ((toDay - fromDay).toNat + 1)).map (fun i : ℕ => fromDay + (i : Int))
  else []

def dailySeriesRows (agg : List (Int × DailyAgg)) (refundsAgg : List (Int × ℚ))
    (fromDay toDay : Int) : List DailyBucketRow :=
  (generateSeriesDays fromDay toDay).map (fun d =>
    let a := ((agg.find? (fun r => r.1 == d)).map Prod.snd).getD zeroDailyAgg
    let rf := ((refundsAgg.find? (fun r => r.1 == d)).map Prod.snd).getD 0
    { date := d, ordersCount := a.ordersCount
      lineItemsSubtotal := a.lineItemsSubtotal, incomeBruto := a.incomeBruto
      refunds := rf, incomeNeto := a.incomeNeto
      shippingAmount := a.shippingAmount, taxAmount := a.taxAmount
      discountAmount := a.discountAmount })

/-- The zero point the daily-v2 route passes as `makeZeroPoint`. -/
def wZeroPoint (bucketKey : Int) : HourlyBucketPoint :=
  { date := bucketKey, ordersCount := 0
    orderRevenue := toMoneyValue "0", incomeBruto := toMoneyValue "0"
    refunds := toMoneyValue "0", incomeNeto := toMoneyValue "0"
    shippingAmount := toMoneyValue "0", taxAmount := toMoneyValue "0"
    discountAmount := toMoneyValue "0" }

/-! ### Basic lemmas about the Except embedding -/

theorem except_bind_eq_ok {ε α β : Type} {x : Except ε α} {f : α → Except ε β} {b : β} :
    (x >>= f) = .ok b ↔ ∃ a, x = .ok a ∧ f a = .ok b := by
  cases x with
  | error e =>
    constructor
    · intro h; exact absurd h (by simp [Bind.bind, Except.bind])
    · rintro ⟨a, ha, hf⟩; cases ha
  | ok a =>
    constructor
    · intro h; exact ⟨a, rfl, h⟩
    · rintro ⟨a2, ha, hf⟩; cases ha; exact hf

theorem assertSameCurrency_eq_ok {a b : Money} :
    assertSameCurrency a b = .ok () ↔ a.currencyCode = b.currencyCode := by
  unfold assertSameCurrency
  split <;> simp_all

theorem addMoney_eq_ok {a b m : Money} :
    addMoney a b = .ok m ↔
      a.currencyCode = b.currencyCode ∧
        m = { amount := a.amount + b.amount, currencyCode := a.currencyCode } := by
  unfold addMoney assertSameCurrency
  split <;> simp_all [Bind.bind, Except.bind, eq_comm]

theorem subMoney_eq_ok {a b m : Money} :
    subMoney a b = .ok m ↔
      a.currencyCode = b.currencyCode ∧
        m = { amount := a.amount - b.amount, currencyCode := a.currencyCode } := by
  unfold subMoney assertSameCurrency
  split <;> simp_all [Bind.bind, Except.bind, eq_comm]

theorem checkOrderCurrencies_ok {order : ShopifyOrderNormalized}
    (h : checkOrderCurrencies order = .ok ()) :
    order.lineItemsSubtotal.currencyCode = order.currencyCode ∧
    order.shippingAmount.currencyCode = order.currencyCode ∧
    order.taxAmount.currencyCode = order.currencyCode ∧
    order.discountAmount.currencyCode = order.currencyCode := by
  revert h
  unfold checkOrderCurrencies assertSameCurrency zeroMoney
  split_ifs with h1 h2 h3 h4 <;>
    intro h <;>
    simp_all [Bind.bind, Except.bind]

theorem foldlM_addMoney_ok (l : List ShopifyRefundNormalized) :
    ∀ acc m : Money,
      l.foldlM (fun acc r => addMoney acc r.amount) acc = .ok m →
        m.amount = acc.amount + (l.map (fun r => r.amount.amount)).sum ∧
        m.currencyCode = acc.currencyCode := by
  induction l with
  | nil =>
    intro acc m h
    simp only [List.foldlM_nil] at h
    cases h
    simp
  | cons x xs ih =>
    intro acc m h
    rw [List.foldlM_cons] at h
    rcases except_bind_eq_ok.mp h with ⟨acc2, hx, hrest⟩
    rcases addMoney_eq_ok.mp hx with ⟨_, hacc2⟩
    rcases ih acc2 m hrest with ⟨hsum, hcur⟩
    subst hacc2
    constructor
    · simp at hsum ⊢
      rw [hsum]; ring
    · simpa using hcur

/-- Characterization of a successful `computeIncomeComponents` call: the
values and currencies of the derived components. -/
theorem computeIncomeComponents_ok_spec {order : ShopifyOrderNormalized}
    {refunds : List ShopifyRefundNormalized} {comps : IncomeComponents}
    (h : computeIncomeComponents order refunds = .ok comps) :
    comps.income_bruto.amount =
        order.lineItemsSubtotal.amount + order.shippingAmount.amount ∧
    comps.refunds.amount = (refunds.map (fun r => r.amount.amount)).sum ∧
    comps.income_neto.amount = comps.income_bruto.amount - comps.refunds.amount ∧
    comps.income_bruto.currencyCode = order.currencyCode ∧
    comps.refunds.currencyCode = order.currencyCode := by
  unfold computeIncomeComponents at h
  rcases except_bind_eq_ok.mp h with ⟨u1, hco, h⟩
  rcases except_bind_eq_ok.mp h with ⟨u2, hcr, h⟩
  rcases except_bind_eq_ok.mp h with ⟨refundsSum, hsum, h⟩
  rcases except_bind_eq_ok.mp h with ⟨bruto, hbruto, h⟩
  rcases except_bind_eq_ok.mp h with ⟨neto, hneto, h⟩
  cases h
  obtain ⟨hsubC, hshipC, _, _⟩ := checkOrderCurrencies_ok hco
  rcases addMoney_eq_ok.mp hbruto with ⟨_, hbrutoEq⟩
  subst hbrutoEq
  rcases subMoney_eq_ok.mp hneto with ⟨_, hnetoEq⟩
  subst hnetoEq
  have hsumSpec : refundsSum.amount = (refunds.map (fun r => r.amount.amount)).sum ∧
      refundsSum.currencyCode = order.currencyCode := by
    unfold refundsSumV1 at hsum
    by_cases hemp : refunds.isEmpty
    · rw [if_pos hemp] at hsum
      cases hsum
      rcases List.isEmpty_iff.mp hemp
      simp [zeroMoney]
    · rw [if_neg hemp] at hsum
      have := foldlM_addMoney_ok refunds (zeroMoney order.currencyCode) refundsSum hsum
      simpa [zeroMoney] using this
  refine ⟨rfl, hsumSpec.1, rfl, hsubC, hsumSpec.2⟩

/-- C1: for every normalized order and refund list on which no Money operation
raises a currency mismatch (i.e. `computeIncomeComponents` succeeds), gross
income (`income_bruto`) equals subtotal-after-discounts plus shipping (tax
never added), the refunds total is the sum of the refund amounts from a zero
start, and net income equals gross minus the refunds total. -/
theorem income_components_correct (order : ShopifyOrderNormalized)
    (refunds : List ShopifyRefundNormalized) (comps : IncomeComponents)
    (h : computeIncomeComponents order refunds = .ok comps) :
    comps.income_bruto.amount =
        order.lineItemsSubtotal.amount + order.shippingAmount.amount ∧
    comps.refunds.amount = (refunds.map (fun r => r.amount.amount)).sum ∧
    comps.income_neto.amount = comps.income_bruto.amount - comps.refunds.amount := by
  obtain ⟨h1, h2, h3, _, _⟩ := computeIncomeComponents_ok_spec h
  exact ⟨h1, h2, h3⟩

/-- C1 witness: the scenario order with one refund of 200 evaluates to
gross 1100, refundsTotal 200, net 900, and the main theorem applies. -/
theorem income_components_correct_witness :
    (∃ comps, computeIncomeComponents scenarioOrder [scenarioRefund] = .ok comps ∧
      comps.income_bruto.amount = 1100 ∧ comps.refunds.amount = 200 ∧
      comps.income_neto.amount = 900 ∧
      (comps.income_bruto.amount =
          scenarioOrder.lineItemsSubtotal.amount + scenarioOrder.shippingAmount.amount ∧
       comps.refunds.amount = ([scenarioRefund].map (fun r => r.amount.amount)).sum ∧
       comps.income_neto.amount = comps.income_bruto.amount - comps.refunds.amount)) := by
  have hok : computeIncomeComponents scenarioOrder [scenarioRefund] =
      .ok { currencyCode := "MXN"
            line_items_subtotal := { amount := 900, currencyCode := "MXN" }
            shipping_amount := { amount := 100, currencyCode := "MXN" }
            tax_amount := { amount := 160, currencyCode := "MXN" }
            discount_amount := { amount := 0, currencyCode := "MXN" }
            income_bruto := { amount := 1100, currencyCode := "MXN" }
            refunds := { amount := 200, currencyCode := "MXN" }
            income_neto := { amount := 900, currencyCode := "MXN" } } := by
    norm_num [computeIncomeComponents, checkOrderCurrencies, checkRefundCurrencies,
      refundsSumV1, addMoney, subMoney, assertSameCurrency, zeroMoney,
      scenarioOrder, scenarioRefund, Bind.bind, Except.bind, Pure.pure, Except.pure,
      List.forM, List.foldlM]
  exact ⟨_, hok, rfl, rfl, rfl,
    income_components_correct scenarioOrder [scenarioRefund] _ hok⟩

/-- Evaluation of `cmpMoney` on same-currency operands. -/
theorem cmpMoney_eq_ok {a b : Money} (h : a.currencyCode = b.currencyCode) :
    cmpMoney a b =
      .ok (if a.amount < b.amount then -1 else if b.amount < a.amount then 1 else 0) := by
  unfold cmpMoney assertSameCurrency
  rw [if_pos h]
  simp only [Bind.bind, Except.bind]
  split_ifs <;> rfl

/-- C2: `shouldExcludeOrderV1` applies its checks first-match-wins:
(1) cancellation timestamp present → reason `cancelled`;
(2) test flag true → reason `test`;
(3) refunds total ≥ gross income (`income_bruto`) → reason `fully_refunded`;
otherwise the order is included.  In particular an order that is both
cancelled and fully refunded is reported with reason `cancelled` (part 1
applies regardless of the refund state). -/
theorem exclusion_first_match_wins (order : ShopifyOrderNormalized)
    (refunds : List ShopifyRefundNormalized) :
    (cancelledPresent order = true →
        shouldExcludeOrderV1 order refunds =
          .ok { exclude := true, reason := some .cancelled }) ∧
    (cancelledPresent order = false → order.isTest = some true →
        shouldExcludeOrderV1 order refunds =
          .ok { exclude := true, reason := some .test }) ∧
    (∀ comps : IncomeComponents, cancelledPresent order = false →
        order.isTest ≠ some true →
        computeIncomeComponents order refunds = .ok comps →
        comps.income_bruto.amount ≤ comps.refunds.amount →
        shouldExcludeOrderV1 order refunds =
          .ok { exclude := true, reason := some .fully_refunded }) ∧
    (∀ comps : IncomeComponents, cancelledPresent order = false →
        order.isTest ≠ some true →
        computeIncomeComponents order refunds = .ok comps →
        comps.refunds.amount < comps.income_bruto.amount →
        shouldExcludeOrderV1 order refunds =
          .ok { exclude := false, reason := none }) := by
  refine ⟨fun hc => ?_, fun hc ht => ?_, fun comps hc ht hcomp hge => ?_,
    fun comps hc ht hcomp hlt => ?_⟩
  · unfold shouldExcludeOrderV1
    rw [if_pos hc]
  · unfold shouldExcludeOrderV1
    rw [if_neg (by simp [hc]), if_pos ht]
  · have hcur : comps.refunds.currencyCode = comps.income_bruto.currencyCode := by
      obtain ⟨_, _, _, h4, h5⟩ := computeIncomeComponents_ok_spec hcomp
      rw [h4, h5]
    unfold shouldExcludeOrderV1
    rw [if_neg (by simp [hc]), if_neg ht, except_bind_eq_ok]
    refine ⟨comps, hcomp, ?_⟩
    rw [except_bind_eq_ok]
    refine ⟨_, cmpMoney_eq_ok hcur, ?_⟩
    rw [if_neg (not_lt.mpr hge)]
    split_ifs with h1 h2 <;> simp_all
  · have hcur : comps.refunds.currencyCode = comps.income_bruto.currencyCode := by
      obtain ⟨_, _, _, h4, h5⟩ := computeIncomeComponents_ok_spec hcomp
      rw [h4, h5]
    unfold shouldExcludeOrderV1
    rw [if_neg (by simp [hc]), if_neg ht, except_bind_eq_ok]
    refine ⟨comps, hcomp, ?_⟩
    rw [except_bind_eq_ok]
    refine ⟨_, cmpMoney_eq_ok hcur, ?_⟩
    rw [if_pos hlt]
    norm_num

/-- C2 witness: an order that is both cancelled and fully refunded (refunds
1100 = gross 1100) is reported with reason `cancelled`. -/
theorem exclusion_first_match_wins_witness :
    cancelledPresent cancelledRefundedOrder = true ∧
    (∃ comps, computeIncomeComponents cancelledRefundedOrder [fullRefund] = .ok comps ∧
      comps.income_bruto.amount ≤ comps.refunds.amount) ∧
    shouldExcludeOrderV1 cancelledRefundedOrder [fullRefund] =
      .ok { exclude := true, reason := some .cancelled } := by
  have hcomps : computeIncomeComponents cancelledRefundedOrder [fullRefund] =
      .ok { currencyCode := "MXN"
            line_items_subtotal := { amount := 0, currencyCode := "MXN" }
            shipping_amount := { amount := 100, currencyCode := "MXN" }
            tax_amount := { amount := 160, currencyCode := "MXN" }
            discount_amount := { amount := 0, currencyCode := "MXN" }
            income_bruto := { amount := 1100, currencyCode := "MXN" }
            refunds := { amount := 1100, currencyCode := "MXN" }
            income_neto := { amount := 0, currencyCode := "MXN" } } := by
    norm_num [computeIncomeComponents, checkOrderCurrencies, checkRefundCurrencies,
      refundsSumV1, addMoney, subMoney, assertSameCurrency, zeroMoney,
      cancelledRefundedOrder, scenarioOrder, fullRefund, Bind.bind, Except.bind,
      Pure.pure, Except.pure, List.forM, List.foldlM]
  exact ⟨rfl, ⟨_, hcomps, le_refl _⟩,
    (exclusion_first_match_wins cancelledRefundedOrder [fullRefund]).1 rfl⟩

/-- C3: combining two Money values with `addMoney`, `subMoney` or `cmpMoney`
raises `CurrencyMismatch` exactly when the currency codes differ: differing
currencies always produce the error (never a silently coerced result), and
equal currencies never produce it. -/
theorem currency_mismatch_invariant (a b : Money) :
    (a.currencyCode ≠ b.currencyCode →
        addMoney a b = .error (.currencyMismatch a.currencyCode b.currencyCode) ∧
        subMoney a b = .error (.currencyMismatch a.currencyCode b.currencyCode) ∧
        cmpMoney a b = .error (.currencyMismatch a.currencyCode b.currencyCode)) ∧
    (a.currencyCode = b.currencyCode →
        (∃ m, addMoney a b = .ok m) ∧
        (∃ m, subMoney a b = .ok m) ∧
        (∃ v, cmpMoney a b = .ok v)) := by
  constructor
  · intro hne
    refine ⟨?_, ?_, ?_⟩ <;>
      simp [addMoney, subMoney, cmpMoney, assertSameCurrency, hne, Bind.bind, Except.bind]
  · intro heq
    refine ⟨⟨_, addMoney_eq_ok.mpr ⟨heq, rfl⟩⟩, ⟨_, subMoney_eq_ok.mpr ⟨heq, rfl⟩⟩,
      ⟨_, cmpMoney_eq_ok heq⟩⟩

/-- C3 witness: `1 USD` vs `2 EUR` raises `CurrencyMismatch` for all three
operations; `1 USD` vs `2 USD` raises none. -/
theorem currency_mismatch_invariant_witness :
    (({ amount := 1, currencyCode := "USD" } : Money).currencyCode ≠
      ({ amount := 2, currencyCode := "EUR" } : Money).currencyCode) ∧
    (addMoney { amount := 1, currencyCode := "USD" } { amount := 2, currencyCode := "EUR" } =
        .error (.currencyMismatch "USD" "EUR") ∧
      subMoney { amount := 1, currencyCode := "USD" } { amount := 2, currencyCode := "EUR" } =
        .error (.currencyMismatch "USD" "EUR") ∧
      cmpMoney { amount := 1, currencyCode := "USD" } { amount := 2, currencyCode := "EUR" } =
        .error (.currencyMismatch "USD" "EUR")) ∧
    ((∃ m, addMoney { amount := 1, currencyCode := "USD" }
        { amount := 2, currencyCode := "USD" } = .ok m) ∧
      (∃ m, subMoney { amount := 1, currencyCode := "USD" }
        { amount := 2, currencyCode := "USD" } = .ok m) ∧
      (∃ v, cmpMoney { amount := 1, currencyCode := "USD" }
        { amount := 2, currencyCode := "USD" } = .ok v)) := by
  refine ⟨by decide, ?_, ?_⟩
  · exact (currency_mismatch_invariant
      { amount := 1, currencyCode := "USD" } { amount := 2, currencyCode := "EUR" }).1
      (by decide)
  · exact (currency_mismatch_invariant
      { amount := 1, currencyCode := "USD" } { amount := 2, currencyCode := "USD" }).2 rfl

/-- C8: the delta calculator returns `{0, flat}` when both values are zero,
`{null, up}` / `{null, down}` when only the previous value is zero, and
otherwise the percent change `(current − previous)/previous × 100` rounded
half-to-even to 2 decimals, with the direction taken from the sign of the
rounded value. -/
theorem delta_calculator_correct (current previous : ℚ) :
    (previous = 0 → current = 0 →
        computeDeltaPercent current previous =
          { percentChange := some 0, direction := .flat }) ∧
    (previous = 0 → 0 < current →
        computeDeltaPercent current previous =
          { percentChange := none, direction := .up }) ∧
    (previous = 0 → current < 0 →
        computeDeltaPercent current previous =
          { percentChange := none, direction := .down }) ∧
    (previous ≠ 0 →
        (computeDeltaPercent current previous).percentChange =
          some (toDecimalPlacesHE 2 ((current - previous) / previous * 100)) ∧
        (computeDeltaPercent current previous).direction =
          (if 0 < toDecimalPlacesHE 2 ((current - previous) / previous * 100) then .up
           else if toDecimalPlacesHE 2 ((current - previous) / previous * 100) < 0 then .down
           else .flat)) := by
  refine ⟨fun hp hc => ?_, fun hp hc => ?_, fun hp hc => ?_, fun hp => ?_⟩
  · simp [computeDeltaPercent, hp, hc]
  · simp [computeDeltaPercent, hp, ne_of_gt hc, hc]
  · simp [computeDeltaPercent, hp, ne_of_lt hc, not_lt.mpr (le_of_lt hc), hc]
  · constructor <;> simp [computeDeltaPercent, hp]

/-- C8 witness: `delta(101, 100) = {1, up}`. -/
theorem delta_calculator_correct_witness :
    ((100 : ℚ) ≠ 0) ∧
    computeDeltaPercent 101 100 = { percentChange := some 1, direction := .up } := by
  refine ⟨by norm_num, ?_⟩
  obtain ⟨h1, h2⟩ := (delta_calculator_correct 101 100).2.2.2 (by norm_num)
  have hval : toDecimalPlacesHE 2 ((101 - 100) / 100 * 100 : ℚ) = 1 := by
    norm_num [toDecimalPlacesHE, roundHalfEvenInt]
  rw [hval] at h1 h2
  rw [if_pos (by norm_num : (0:ℚ) < 1)] at h2
  cases hres : computeDeltaPercent 101 100 with
  | mk pc dir =>
    rw [hres] at h1 h2
    simp_all

/-- C5 counterexample: with a persisted watermark 100 days old (now = 0,
overlap 2 days, initial backfill 30 days) the code's lower bound is
`watermark − overlap` = −102 days, not
`max(watermark − overlap, now − backfill)` = −30 days. -/
theorem fetch_window_no_backfill_clamp_cex :
    effectiveWatermarkLowerBound (some (-8640000000)) 0 2 30 = -8812800000 ∧
    max (-8812800000 : Int) (0 - 30 * msPerDay) = -2592000000 ∧
    (-8812800000 : Int) ≠ -2592000000 := by
  refine ⟨rfl, ?_, by decide⟩
  rw [show (0 - 30 * msPerDay : Int) = -2592000000 from rfl]
  decide

/-- C5 (amended): the fetch-window lower bound is `lastWatermark − overlapDays`
whenever a persisted watermark exists (no clamp against the initial backfill),
and `now − initialBackfillDays` when none exists. -/
theorem fetch_window_lower_bound (now overlapDays initialBackfillDays : Int) :
    (∀ w : Int, effectiveWatermarkLowerBound (some w) now overlapDays initialBackfillDays =
        w - overlapDays * msPerDay) ∧
    effectiveWatermarkLowerBound none now overlapDays initialBackfillDays =
        now - initialBackfillDays * msPerDay :=
  ⟨fun _ => rfl, rfl⟩

/-- C4: evaluation of the watermark update at the failing inputs.  With a
prior watermark of 8640000000 (day 100): a successful run that observed no
records CLEARS the watermark to `none` (the claim requires it to stay
unchanged); a successful run whose maximum observed timestamp is 8553600000
(day 99, inside the 2-day overlap window) REGRESSES the watermark (the claim
requires it never to decrease).  A failed run does leave it unchanged. -/
theorem watermark_update_bug :
    nextWatermark (some 8640000000) true (runMaxProcessedAt []) = none ∧
    nextWatermark (some 8640000000) true (runMaxProcessedAt [some 8553600000]) =
      some 8553600000 ∧
    nextWatermark (some 8640000000) false none = some 8640000000 := by
  refine ⟨rfl, ?_, rfl⟩
  rfl

/-- C9 counterexample: a refund whose reported total is exactly 0 and whose
line-item subtotal sum is −5 is attributed the amount 0, not the line-item
sum −5: the fallback fires only when the line-item sum is strictly positive. -/
theorem refund_attribution_cex :
    shopMoneyToMoney (some negLineRefundNode.totalRefundedSet) "MXN" =
      .ok { amount := 0, currencyCode := "MXN" } ∧
    refundLineItemsSubtotalAmount negLineRefundNode.refundLineItems "MXN" =
      .ok { amount := -5, currencyCode := "MXN" } ∧
    mapRefundAmount negLineRefundNode "MXN" = .ok { amount := 0, currencyCode := "MXN" } ∧
    ((0 : ℚ) ≠ -5) := by
  refine ⟨rfl, ?_, ?_, by norm_num⟩
  · norm_num [refundLineItemsSubtotalAmount, shopMoneyToMoney, addMoneyAmounts,
      zeroMoney, negLineRefundNode, Bind.bind, Except.bind, Pure.pure, Except.pure,
      List.foldlM]
  · norm_num [mapRefundAmount, refundLineItemsSubtotalAmount, shopMoneyToMoney,
      addMoneyAmounts, zeroMoney, negLineRefundNode, Bind.bind, Except.bind,
      Pure.pure, Except.pure, List.foldlM]

/-- C9 (amended): the refund attributor resolves the effective refund amount
as the platform-reported total, except that when the reported total is
exactly zero AND the line-item subtotal sum is strictly positive it falls
back to that sum; the decision is made per refund event. -/
theorem refund_attribution (node : RefundNode) (currencyCode : String)
    (total lineSum : Money)
    (h1 : shopMoneyToMoney (some node.totalRefundedSet) currencyCode = .ok total)
    (h2 : refundLineItemsSubtotalAmount node.refundLineItems currencyCode = .ok lineSum) :
    mapRefundAmount node currencyCode =
      .ok (if total.amount = 0 ∧ 0 < lineSum.amount then lineSum else total) := by
  unfold mapRefundAmount
  rw [except_bind_eq_ok]
  exact ⟨total, h1, by rw [except_bind_eq_ok]; exact ⟨lineSum, h2, rfl⟩⟩

/-- C9 witness: a refund with reported total 0 and one line-item refund of
599 is attributed the amount 599 (fallback path). -/
theorem refund_attribution_witness :
    shopMoneyToMoney (some lineRefund599Node.totalRefundedSet) "MXN" =
      .ok { amount := 0, currencyCode := "MXN" } ∧
    refundLineItemsSubtotalAmount lineRefund599Node.refundLineItems "MXN" =
      .ok { amount := 599, currencyCode := "MXN" } ∧
    mapRefundAmount lineRefund599Node "MXN" =
      .ok { amount := 599, currencyCode := "MXN" } := by
  have h1 : shopMoneyToMoney (some lineRefund599Node.totalRefundedSet) "MXN" =
      .ok { amount := 0, currencyCode := "MXN" } := rfl
  have h2 : refundLineItemsSubtotalAmount lineRefund599Node.refundLineItems "MXN" =
      .ok { amount := 599, currencyCode := "MXN" } := by
    norm_num [refundLineItemsSubtotalAmount, shopMoneyToMoney, addMoneyAmounts,
      zeroMoney, lineRefund599Node, Bind.bind, Except.bind, Pure.pure, Except.pure,
      List.foldlM]
  have h := refund_attribution lineRefund599Node "MXN" _ _ h1 h2
  rw [if_pos (by norm_num)] at h
  exact ⟨h1, h2, h⟩

/-! ### Lemmas about the fixed-digit serialization -/

theorem digitChar_isDigit {n : ℕ} (h : n < 10) : (Nat.digitChar n).isDigit = true := by
  interval_cases n <;> decide

theorem natDigitsAux_all_digit :
    ∀ (fuel n : ℕ), ∀ c ∈ natDigitsAux fuel n, c.isDigit = true := by
  intro fuel
  induction fuel with
  | zero => intro n c hc; simp [natDigitsAux] at hc
  | succ fuel ih =>
    intro n c hc
    unfold natDigitsAux at hc
    split_ifs at hc with h
    · rcases List.mem_singleton.mp hc with rfl
      exact digitChar_isDigit h
    · rcases List.mem_append.mp hc with hc | hc
      · exact ih (n / 10) c hc
      · rcases List.mem_singleton.mp hc with rfl
        exact digitChar_isDigit (Nat.mod_lt n (by norm_num))

theorem natDigitsAux_length_le :
    ∀ (fuel n k : ℕ), n < 10 ^ k → 0 < k → (natDigitsAux fuel n).length ≤ k := by
  intro fuel
  induction fuel with
  | zero => intro n k _ hk; simp [natDigitsAux]
  | succ fuel ih =>
    intro n k hn hk
    unfold natDigitsAux
    split_ifs with h
    · simpa using hk
    · simp only [List.length_append, List.length_cons, List.length_nil]
      have hk2 : 2 ≤ k := by
        rcases Nat.lt_or_ge k 2 with hlt | hge
        · interval_cases k
          exact absurd (by simpa using hn) h
        · exact hge
      have hdiv : n / 10 < 10 ^ (k - 1) := by
        apply Nat.div_lt_of_lt_mul
        calc n < 10 ^ k := hn
          _ = 10 * 10 ^ (k - 1) := by
              rw [← pow_succ']
              congr 1
              omega
      have := ih (n / 10) (k - 1) hdiv (by omega)
      omega

theorem dropWhile_to_dot (xs rest : List Char) (h : ∀ c ∈ xs, c ≠ '.') :
    List.dropWhile (fun c => c != '.') (xs ++ '.' :: rest) = '.' :: rest := by
  induction xs with
  | nil => simp [List.dropWhile]
  | cons x xs ih =>
    have hx : x ≠ '.' := h x (by simp)
    rw [List.cons_append, List.dropWhile_cons, if_pos (by simpa using hx)]
    exact ih (fun c hc => h c (by simp [hc]))

theorem padDigits_length (len : ℕ) (ds : List Char) (h : ds.length ≤ len) :
    (padDigits len ds).length = len := by
  simp only [padDigits, List.length_append, List.length_replicate]
  omega

theorem fracDigitCount_formatFixed (decimals : ℕ) (m : Int) (hd : 0 < decimals) :
    fracDigitCount (formatFixed decimals m) = decimals := by
  have hmem : ∀ c ∈ ((if m < 0 then ['-'] else []) ++
      natDigits (m.natAbs / 10 ^ decimals)), c ≠ '.' := by
    intro c hc
    rcases List.mem_append.mp hc with hc | hc
    · split_ifs at hc with hneg
      · rcases List.mem_singleton.mp hc with rfl; decide
      · simp at hc
    · intro heq
      have := natDigitsAux_all_digit _ _ c hc
      rw [heq] at this
      exact absurd this (by decide)
  have hlen : (natDigits (m.natAbs % 10 ^ decimals)).length ≤ decimals :=
    natDigitsAux_length_le _ _ decimals
      (Nat.mod_lt _ (Nat.pos_pow_of_pos decimals (by norm_num))) hd
  show fracDigitCount (String.mk _) = decimals
  unfold fracDigitCount
  rw [show ((if m < 0 then ['-'] else []) ++ natDigits (m.natAbs / 10 ^ decimals) ++
      '.' :: padDigits decimals (natDigits (m.natAbs % 10 ^ decimals))) =
      (((if m < 0 then ['-'] else []) ++ natDigits (m.natAbs / 10 ^ decimals)) ++
      '.' :: padDigits decimals (natDigits (m.natAbs % 10 ^ decimals))) from by
    simp [List.append_assoc]]
  rw [dropWhile_to_dot _ _ hmem]
  exact padDigits_length decimals _ hlen

/-- C10 (amended): `toMoneyValue` is total: any input whose normalized form
the decimal.js constructor rejects or parses as non-finite (`NaN`,
`Infinity`, malformed) is mapped to the zero value
`{raw := "0.000000", display := "0.00"}` rather than failing — but a string
in one of the constructor's non-decimal notations (binary/hexadecimal/octal,
underscore separators) parses as its numeric value, not to zero, see the
counterexample — and for every input the raw field has exactly 6 fractional
digits and the display field exactly 2.  (The empty string is normalized to
`"0"` by the `trim() || "0"` step and lands on the same zero value.) -/
theorem toMoneyValue_total_fixed_digits (s : String) :
    ((parseDec (jsOrZero s) = DecParse.nonfinite ∨
        parseDec (jsOrZero s) = DecParse.invalid) →
      toMoneyValue s = { raw := "0.000000", display := "0.00" }) ∧
    fracDigitCount (toMoneyValue s).raw = 6 ∧
    fracDigitCount (toMoneyValue s).display = 2 := by
  have hmv : toMoneyValue s =
      { raw := toRaw6 s
        display := formatFixed 2 (toFixedScaledHE 2 (parseFiniteOr0 (toRaw6 s))) } := rfl
  refine ⟨?_, ?_, ?_⟩
  · intro h
    have hraw : toRaw6 s = "0.000000" := by
      unfold toRaw6
      rcases h with h | h <;> rw [h]
    rw [hmv, hraw]
    decide
  · rw [hmv]
    show fracDigitCount (toRaw6 s) = 6
    unfold toRaw6
    cases hp : parseDec (jsOrZero s) with
    | finite v => exact fracDigitCount_formatFixed 6 _ (by norm_num)
    | nonfinite => decide
    | invalid => decide
  · rw [hmv]
    exact fracDigitCount_formatFixed 2 _ (by norm_num)

/-- C10 witness: a malformed string, the empty string, `NaN` and `-Infinity`
all map to the zero value, with 6 raw and 2 display fractional digits. -/
theorem toMoneyValue_total_fixed_digits_witness :
    (parseDec (jsOrZero "abc") = DecParse.nonfinite ∨
      parseDec (jsOrZero "abc") = DecParse.invalid) ∧
    toMoneyValue "abc" = { raw := "0.000000", display := "0.00" } ∧
    fracDigitCount (toMoneyValue "abc").raw = 6 ∧
    fracDigitCount (toMoneyValue "abc").display = 2 ∧
    toMoneyValue "" = { raw := "0.000000", display := "0.00" } ∧
    toMoneyValue "NaN" = { raw := "0.000000", display := "0.00" } ∧
    toMoneyValue "-Infinity" = { raw := "0.000000", display := "0.00" } := by
  have h := toMoneyValue_total_fixed_digits "abc"
  exact ⟨Or.inr (by decide), h.1 (Or.inr (by decide)), h.2.1, h.2.2,
    by decide, by decide, by decide⟩

/-- C10 counterexample: `"0x1f"` is not a decimal numeral (decimal-notation
parsing fails on it), yet `toMoneyValue` does not map it to the zero value:
the decimal.js constructor accepts hexadecimal notation and parses it as 31,
so the code returns `{raw := "31.000000", display := "31.00"}`; likewise the
underscore-separated `"1_000"` yields 1000, not zero. -/
theorem nondecimal_string_not_zero_cex :
    parseDecCore ("0x1f".data) = none ∧
    parseDec "0x1f" = .finite ⟨31, 0⟩ ∧
    toMoneyValue "0x1f" = { raw := "31.000000", display := "31.00" } ∧
    parseDecCore ("1_000".data) = none ∧
    toMoneyValue "1_000" = { raw := "1000.000000", display := "1000.00" } ∧
    (({ raw := "31.000000", display := "31.00" } : MoneyValue) ≠
      { raw := "0.000000", display := "0.00" }) :=
  ⟨by decide, by decide, by decide, by decide, by decide, by decide⟩

/-- C7 counterexample: the raw serialization does NOT round half-to-even: on
input `"0.0000005"` (value 5·10⁻⁷) the code emits raw `"0.000001"`
(half-up, the decimal.js default for `toFixed`), while a half-to-even
6-digit serialization of the same value is `"0.000000"`. -/
theorem raw_rounding_not_half_even_cex :
    parseDec (jsOrZero "0.0000005") = .finite ⟨5, -7⟩ ∧
    (toMoneyValue "0.0000005").raw = "0.000001" ∧
    formatFixed 6 (toFixedScaledHE 6 ⟨5, -7⟩) = "0.000000" ∧
    ("0.000001" : String) ≠ "0.000000" := by
  exact ⟨by decide, by decide, by decide, by decide⟩

/-- C7 (amended): display serialization rounds half-to-even to fixed 2
fractional digits, while the raw serialization uses fixed 6 fractional
digits with half-up rounding (ties away from zero, the decimal.js default);
the spec's display examples hold: `"1.005000" → "1.00"`,
`"1.015000" → "1.02"`, `"2.005000" → "2.00"`. -/
theorem money_serialization_rounding (s : String) (v : DecValue)
    (h : parseDec (jsOrZero s) = .finite v) :
    (toMoneyValue s).raw = formatFixed 6 (toFixedScaledHU 6 v) ∧
    (toMoneyValue s).display =
      formatFixed 2 (toFixedScaledHE 2 (parseFiniteOr0 ((toMoneyValue s).raw))) ∧
    toMoneyValue "1.005000" = { raw := "1.005000", display := "1.00" } ∧
    (toMoneyValue "1.015000").display = "1.02" ∧
    (toMoneyValue "2.005000").display = "2.00" := by
  have hraw : (toMoneyValue s).raw = formatFixed 6 (toFixedScaledHU 6 v) := by
    show toRaw6 s = _
    unfold toRaw6
    rw [h]
  exact ⟨hraw, rfl, by decide, by decide, by decide⟩

/-- C7 witness: instantiation at `"1.005000"` (value 1005000·10⁻⁶). -/
theorem money_serialization_rounding_witness :
    parseDec (jsOrZero "1.005000") = .finite ⟨1005000, -6⟩ ∧
    ((toMoneyValue "1.005000").raw =
        formatFixed 6 (toFixedScaledHU 6 ⟨1005000, -6⟩) ∧
      (toMoneyValue "1.005000").display =
        formatFixed 2 (toFixedScaledHE 2 (parseFiniteOr0 ((toMoneyValue "1.005000").raw))) ∧
      toMoneyValue "1.005000" = { raw := "1.005000", display := "1.00" } ∧
      (toMoneyValue "1.015000").display = "1.02" ∧
      (toMoneyValue "2.005000").display = "2.00") :=
  ⟨by decide, money_serialization_rounding "1.005000" ⟨1005000, -6⟩ (by decide)⟩

/-! ### Lemmas about the bucketing engine -/

theorem getLast?_eq_some_mem {α : Type} {l : List α} {a : α}
    (h : l.getLast? = some a) : a ∈ l := by
  have hx : a ∈ l.getLast? := by rw [h]; rfl
  rcases List.mem_getLast?_eq_getLast hx with ⟨hne, rfl⟩
  exact List.getLast_mem hne

theorem hourKeys_length {S E : Int} (h : S ≤ E) :
    (hourKeys S E).length = (E - S).toNat / 3600000 + 1 := by
  unfold hourKeys
  rw [if_pos h, List.length_map, List.length_range]

theorem hourKeys_getElem {S E : Int} (h : S ≤ E) {i : ℕ}
    (hi : i < (E - S).toNat / 3600000 + 1) :
    (hourKeys S E)[i]? = some (S + msPerHour * i) := by
  unfold hourKeys
  rw [if_pos h, List.getElem?_map]
  simp only [List.getElem?_range, hi, if_true]
  rfl

theorem bucketAt_of_no_match (points : List HourlyBucketPoint)
    (zp : Int → HourlyBucketPoint) (k : Int)
    (h : ∀ p ∈ points, secFloor p.date ≠ k) :
    ((points.filter (fun p => secFloor p.date == k)).getLast?).getD (zp k) = zp k := by
  have hnil : points.filter (fun p => secFloor p.date == k) = [] :=
    List.filter_eq_nil_iff.mpr (fun p hp => by simp [h p hp])
  rw [hnil]
  rfl

theorem bucketAt_of_match (points : List HourlyBucketPoint)
    (zp : Int → HourlyBucketPoint) (k : Int) (p : HourlyBucketPoint)
    (hp : p ∈ points) (hk : secFloor p.date = k) :
    ∃ q ∈ points,
      ((points.filter (fun p => secFloor p.date == k)).getLast?).getD (zp k) = q ∧
      secFloor q.date = k := by
  have hmem : p ∈ points.filter (fun p => secFloor p.date == k) :=
    List.mem_filter.mpr ⟨hp, by simp [hk]⟩
  have hne : points.filter (fun p => secFloor p.date == k) ≠ [] := by
    intro hnil
    rw [hnil] at hmem
    simp at hmem
  cases hl : (points.filter (fun p => secFloor p.date == k)).getLast? with
  | none => exact absurd (List.getLast?_eq_none_iff.mp hl) hne
  | some q =>
    have hqf := getLast?_eq_some_mem hl
    have hq := List.mem_filter.mp hqf
    exact ⟨q, hq.1, rfl, by simpa using hq.2⟩

theorem generateSeriesDays_length {fromDay toDay : Int} (h : fromDay ≤ toDay) :
    (generateSeriesDays fromDay toDay).length = (toDay - fromDay).toNat + 1 := by
  unfold generateSeriesDays
  rw [if_pos h, List.length_map, List.length_range]

theorem generateSeriesDays_getElem {fromDay toDay : Int} (h : fromDay ≤ toDay)
    {i : ℕ} (hi : i < (toDay - fromDay).toNat + 1) :
    (generateSeriesDays fromDay toDay)[i]? = some (fromDay + i) := by
  unfold generateSeriesDays
  rw [if_pos h, List.getElem?_map]
  simp only [List.getElem?_range, hi, if_true]
  rfl

/-- C6: the bucketing engine emits exactly one bucket per unit covering the
requested local range inclusive of both ends, in ascending order (the i-th
bucket carries the i-th unit's key), synthesizing the zero aggregate for
every unit with no underlying data and keeping a stored point for every unit
that has one.  Hourly buckets (`ensureContinuousHourlyBuckets`) are keyed by
the local hour derived from the UTC bounds and the zone offset — so a local
day always yields hour 0 … hour 23 regardless of the UTC boundaries — and
daily buckets (the `generate_series` day query) are keyed by the local
calendar days `fromDay … toDay`. -/
theorem bucket_contiguity_zero_fill (points : List HourlyBucketPoint)
    (startUtc endUtc tzOffset : Int) (zp : Int → HourlyBucketPoint)
    (agg : List (Int × DailyAgg)) (refundsAgg : List (Int × ℚ))
    (fromDay toDay : Int)
    (hzp : ∀ k, (zp k).date = k)
    (hpts : ∀ p ∈ points, secFloor p.date = p.date)
    (hle : hourFloor (startUtc + tzOffset) ≤ hourFloor (endUtc + tzOffset))
    (hdle : fromDay ≤ toDay) :
    (ensureContinuousHourlyBuckets points startUtc endUtc tzOffset zp).length =
      (hourFloor (endUtc + tzOffset) - hourFloor (startUtc + tzOffset)).toNat / 3600000
        + 1 ∧
    (∀ i : ℕ,
      i < (hourFloor (endUtc + tzOffset) - hourFloor (startUtc + tzOffset)).toNat / 3600000
            + 1 →
      (∃ q, (ensureContinuousHourlyBuckets points startUtc endUtc tzOffset zp)[i]? =
          some q ∧
        q.date = hourFloor (startUtc + tzOffset) + msPerHour * i) ∧
      ((∀ p ∈ points,
          secFloor p.date ≠ hourFloor (startUtc + tzOffset) + msPerHour * i) →
        (ensureContinuousHourlyBuckets points startUtc endUtc tzOffset zp)[i]? =
          some (zp (hourFloor (startUtc + tzOffset) + msPerHour * i))) ∧
      (∀ p ∈ points,
        secFloor p.date = hourFloor (startUtc + tzOffset) + msPerHour * i →
        ∃ q ∈ points,
          (ensureContinuousHourlyBuckets points startUtc endUtc tzOffset zp)[i]? =
            some q ∧
          secFloor q.date = hourFloor (startUtc + tzOffset) + msPerHour * i)) ∧
    (dailySeriesRows agg refundsAgg fromDay toDay).length =
      (toDay - fromDay).toNat + 1 ∧
    (∀ i : ℕ, i < (toDay - fromDay).toNat + 1 →
      (∃ r, (dailySeriesRows agg refundsAgg fromDay toDay)[i]? = some r ∧
        r.date = fromDay + i) ∧
      ((∀ a ∈ agg, a.1 ≠ fromDay + i) → (∀ rf ∈ refundsAgg, rf.1 ≠ fromDay + i) →
        (dailySeriesRows agg refundsAgg fromDay toDay)[i]? =
          some { date := fromDay + i, ordersCount := 0, lineItemsSubtotal := 0
                 incomeBruto := 0, refunds := 0, incomeNeto := 0, shippingAmount := 0
                 taxAmount := 0, discountAmount := 0 })) := by
  have hout : ensureContinuousHourlyBuckets points startUtc endUtc tzOffset zp =
      (hourKeys (hourFloor (startUtc + tzOffset)) (hourFloor (endUtc + tzOffset))).map
        (fun k => ((points.filter (fun p => secFloor p.date == k)).getLast?).getD
          (zp k)) := rfl
  have hkey : ∀ i : ℕ,
      i < (hourFloor (endUtc + tzOffset) - hourFloor (startUtc + tzOffset)).toNat / 3600000
            + 1 →
      (ensureContinuousHourlyBuckets points startUtc endUtc tzOffset zp)[i]? =
        some (((points.filter (fun p =>
            secFloor p.date == hourFloor (startUtc + tzOffset) + msPerHour * i)).getLast?).getD
          (zp (hourFloor (startUtc + tzOffset) + msPerHour * i))) := by
    intro i hi
    rw [hout, List.getElem?_map, hourKeys_getElem hle hi]
    rfl
  have hdout : dailySeriesRows agg refundsAgg fromDay toDay =
      (generateSeriesDays fromDay toDay).map (fun d =>
        { date := d
          ordersCount := (((agg.find? (fun r => r.1 == d)).map Prod.snd).getD
            zeroDailyAgg).ordersCount
          lineItemsSubtotal := (((agg.find? (fun r => r.1 == d)).map Prod.snd).getD
            zeroDailyAgg).lineItemsSubtotal
          incomeBruto := (((agg.find? (fun r => r.1 == d)).map Prod.snd).getD
            zeroDailyAgg).incomeBruto
          refunds := ((refundsAgg.find? (fun r => r.1 == d)).map Prod.snd).getD 0
          incomeNeto := (((agg.find? (fun r => r.1 == d)).map Prod.snd).getD
            zeroDailyAgg).incomeNeto
          shippingAmount := (((agg.find? (fun r => r.1 == d)).map Prod.snd).getD
            zeroDailyAgg).shippingAmount
          taxAmount := (((agg.find? (fun r => r.1 == d)).map Prod.snd).getD
            zeroDailyAgg).taxAmount
          discountAmount := (((agg.find? (fun r => r.1 == d)).map Prod.snd).getD
            zeroDailyAgg).discountAmount }) := rfl
  have hdkey : ∀ i : ℕ, i < (toDay - fromDay).toNat + 1 →
      (dailySeriesRows agg refundsAgg fromDay toDay)[i]? =
        some { date := fromDay + i
               ordersCount := (((agg.find? (fun r => r.1 == fromDay + i)).map
                 Prod.snd).getD zeroDailyAgg).ordersCount
               lineItemsSubtotal := (((agg.find? (fun r => r.1 == fromDay + i)).map
                 Prod.snd).getD zeroDailyAgg).lineItemsSubtotal
               incomeBruto := (((agg.find? (fun r => r.1 == fromDay + i)).map
                 Prod.snd).getD zeroDailyAgg).incomeBruto
               refunds := ((refundsAgg.find? (fun r => r.1 == fromDay + i)).map
                 Prod.snd).getD 0
               incomeNeto := (((agg.find? (fun r => r.1 == fromDay + i)).map
                 Prod.snd).getD zeroDailyAgg).incomeNeto
               shippingAmount := (((agg.find? (fun r => r.1 == fromDay + i)).map
                 Prod.snd).getD zeroDailyAgg).shippingAmount
               taxAmount := (((agg.find? (fun r => r.1 == fromDay + i)).map
                 Prod.snd).getD zeroDailyAgg).taxAmount
               discountAmount := (((agg.find? (fun r => r.1 == fromDay + i)).map
                 Prod.snd).getD zeroDailyAgg).discountAmount } := by
    intro i hi
    rw [hdout, List.getElem?_map, generateSeriesDays_getElem hdle hi]
    rfl
  refine ⟨?_, ?_, ?_, ?_⟩
  · rw [hout, List.length_map, hourKeys_length hle]
  · intro i hi
    refine ⟨?_, ?_, ?_⟩
    · by_cases hmatch : ∃ p ∈ points,
        secFloor p.date = hourFloor (startUtc + tzOffset) + msPerHour * i
      · obtain ⟨p, hp, hk⟩ := hmatch
        obtain ⟨q, hqmem, hqeq, hqkey⟩ := bucketAt_of_match points zp _ p hp hk
        refine ⟨q, ?_, ?_⟩
        · rw [hkey i hi, hqeq]
        · rw [← hpts q hqmem, hqkey]
      · push_neg at hmatch
        rw [hkey i hi, bucketAt_of_no_match points zp _ hmatch]
        exact ⟨_, rfl, hzp _⟩
    · intro hnone
      rw [hkey i hi, bucketAt_of_no_match points zp _ hnone]
    · intro p hp hk
      obtain ⟨q, hqmem, hqeq, hqkey⟩ := bucketAt_of_match points zp _ p hp hk
      exact ⟨q, hqmem, by rw [hkey i hi, hqeq], hqkey⟩
  · rw [hdout, List.length_map, generateSeriesDays_length hdle]
  · intro i hi
    refine ⟨⟨_, hdkey i hi, rfl⟩, ?_⟩
    intro hagg hrf
    have h1 : agg.find? (fun r => r.1 == fromDay + i) = none :=
      List.find?_eq_none.mpr (fun x hx => by simp [hagg x hx])
    have h2 : refundsAgg.find? (fun r => r.1 == fromDay + i) = none :=
      List.find?_eq_none.mpr (fun x hx => by simp [hrf x hx])
    rw [hdkey i hi, h1, h2]
    rfl

/-- C6 witness: one local day in a UTC−6 zone (startUtc 06:00:00.000Z,
endUtc next day 05:59:59.999Z) yields exactly 24 hourly buckets, first key
local hour 0 (ms 0) and last key local hour 23 (ms 82800000), from an empty
store; and the local range day 25 … day 28 yields 4 daily buckets in
ascending order with a zero row for a day without data. -/
theorem bucket_contiguity_zero_fill_witness :
    (ensureContinuousHourlyBuckets [] 21600000 107999999 (-21600000) wZeroPoint).length
      = 24 ∧
    (∃ q, (ensureContinuousHourlyBuckets [] 21600000 107999999 (-21600000)
        wZeroPoint)[0]? = some q ∧ q.date = 0) ∧
    (∃ q, (ensureContinuousHourlyBuckets [] 21600000 107999999 (-21600000)
        wZeroPoint)[23]? = some q ∧ q.date = 82800000) ∧
    (dailySeriesRows [] [] 25 28).length = 4 ∧
    (dailySeriesRows [] [] 25 28)[1]? =
      some { date := 26, ordersCount := 0, lineItemsSubtotal := 0, incomeBruto := 0
             refunds := 0, incomeNeto := 0, shippingAmount := 0, taxAmount := 0
             discountAmount := 0 } := by
  have h := bucket_contiguity_zero_fill [] 21600000 107999999 (-21600000) wZeroPoint
    [] [] 25 28 (fun k => rfl) (by intro p hp; simp at hp) (by decide) (by decide)
  refine ⟨?_, ?_, ?_, ?_, ?_⟩
  · rw [h.1]
    decide
  · obtain ⟨q, hq1, hq2⟩ := (h.2.1 0 (by decide)).1
    exact ⟨q, hq1, by rw [hq2]; decide⟩
  · obtain ⟨q, hq1, hq2⟩ := (h.2.1 23 (by decide)).1
    exact ⟨q, hq1, by rw [hq2]; decide⟩
  · rw [h.2.2.1]
    decide
  · have hz := (h.2.2.2 1 (by decide)).2 (by intro a ha; simp at ha)
      (by intro a ha; simp at ha)
    rw [hz]
    decide

end ThreeWhale
